import Mathlib

/-!
# Verification of the gprMax per-iteration update engine and model-build commands

Shallow embedding of `gprMax/updates.py` (the CPU and CUDA backend operations)
and of the creation commands in `gprMax/cmds_multiple.py` (sources, snapshots,
dispersive-material commands, PML CFS), together with theorems settling the
frozen specification claims.

Numeric values carried by field arrays, coefficients and times are modelled as
rationals; array contents are modelled as functions from a flattened index.
External compiled Cython kernels (not part of the two embedded files) are
passed in as explicit function parameters whose types record exactly which
arrays the call site hands to them, mirroring the Python call signatures.
The CUDA method bodies of `updates.py` all evaluate the bare name `np`, but
the module never imports numpy, so the device operations are embedded as the
NameError-raising computations they are.
-/

namespace GprMax

/-- A field component array (`Ex`, `Hy`, `Tx`, ...), flattened. -/
abbrev FieldArr := Nat → Rat

/-- A material update-coefficient array (`updatecoeffsE`, `updatecoeffsH`,
`updatecoeffsdispersive`), flattened. -/
abbrev CoeffArr := Nat → Rat

/-- The per-cell material-index array `ID`. -/
abbrev IDArr := Nat → Nat

/-- A triple of field component arrays, e.g. `(Ex, Ey, Ez)` or `(Hx, Hy, Hz)`. -/
abbrev FieldTriple := FieldArr × FieldArr × FieldArr

/-- Python exceptions raised by the embedded code. -/
inductive PyError where
  | cmdInputError (msg : String)
  | nameError (missing : String)
  | generalError (msg : String)
deriving DecidableEq, Repr

/-- Polarisation axis of a source (the strings x / y / z after the
membership check in the create methods). -/
inductive Pol where
  | x | y | z
deriving DecidableEq, Repr

/-- The grid mode string, as far as the create methods inspect it
(the substring tests for 2D TMx / 2D TMy / 2D TMz). -/
inductive Mode where
  | threeD | twoDTMx | twoDTMy | twoDTMz
deriving DecidableEq, Repr

/-- GPU device information used by the CUDA backend (`grid.gpu`). -/
structure GPUInfo where
  deviceID : Nat
  constmem : Nat
  name : String
deriving DecidableEq, Repr

/-- Modelled from the spec: the internal auxiliary state of one boundary
absorption slab (the PML classes live outside the two embedded files).  The
spec only requires that a slab owns auxiliary correction state of its own. -/
abbrev PMLState := List Rat

/-- Modelled from the spec: a boundary absorption slab (PML).  Its
`update_electric` / `update_magnetic` methods (and their GPU counterparts)
apply a face-local correction to the electric (resp. magnetic) field
components and update the auxiliary state of the slab; per the spec they touch
no other grid attribute (in particular not the iteration counter). -/
structure PML where
  state : PMLState
  updateElectricF : PMLState → FieldTriple → PMLState × FieldTriple
  updateMagneticF : PMLState → FieldTriple → PMLState × FieldTriple
  gpuUpdateElectricF : PMLState → FieldTriple → PMLState × FieldTriple
  gpuUpdateMagneticF : PMLState → FieldTriple → PMLState × FieldTriple

/-- A source object (voltage source / Hertzian dipole / magnetic dipole /
transmission line).  The data fields are the ones assigned by the create
methods of `cmds_multiple.py`.  The two behavioural fields stand for the
`update_electric` / `update_magnetic` methods of the sources module (which is
outside the two embedded files); modelled from the spec: a source update adds
its forcing term to the field components, reading the iteration number and the
coefficient and index arrays the call site passes, and touches nothing else. -/
structure Source where
  polarisation : Pol
  xcoord : Int
  ycoord : Int
  zcoord : Int
  dl : Rat := 0
  resistance : Rat := 0
  waveformID : String := ""
  start : Rat := 0
  stop : Rat := 0
  updateElectricF : Int → CoeffArr → IDArr → FieldTriple → FieldTriple :=
    fun _ _ _ e => e
  updateMagneticF : Int → CoeffArr → IDArr → FieldTriple → FieldTriple :=
    fun _ _ _ h => h

/-- A receiver (`Rx`): cell coordinate and the samples recorded so far. -/
structure Rx where
  cell : Nat
  outputs : List (Rat × Rat × Rat × Rat × Rat × Rat) := []

/-- A snapshot object (`SnapshotUser`): sub-box corners, per-axis decimation
strides, the single target iteration number `time`, the output filename, and
the number of times its `store` has captured the grid (initially zero). -/
structure Snap where
  time : Int
  xs : Int
  ys : Int
  zs : Int
  xf : Int
  yf : Int
  zf : Int
  dx : Int
  dy : Int
  dz : Int
  filename : String := ""
  captures : Nat := 0

/-- Modelled from the spec: `Snapshot.store` (snapshots module, outside the
two embedded files) box-copies the grid fields into the buffer owned by the snapshot.
The embedding records the capture event; the grid argument mirrors the Python
call `snap.store(self.grid)`. -/
def Snap.storeCapture (s : Snap) : Snap :=
  { s with captures := s.captures + 1 }

/-- A material object (`MaterialUser`) as mutated by the add-dispersion
commands: identifier, dispersion kind, pole count, averaging flag and the
per-pole parameter lists. -/
structure Material where
  ID : String
  type : String := ""
  poles : Nat := 0
  averagable : Bool := true
  deltaer : List Rat := []
  tau : List Rat := []
  alpha : List Rat := []
deriving DecidableEq, Repr

/-- The `FDTDGrid` attributes read or written by the embedded code. -/
structure Grid where
  nx : Nat
  ny : Nat
  nz : Nat
  dx : Rat
  dy : Rat
  dz : Rat
  dt : Rat
  timewindow : Rat
  iterations : Int
  iteration : Int
  mode : Mode
  isSubGrid : Bool
  gpu : Option GPUInfo
  snapsgpu2cpu : Bool
  updatecoeffsE : CoeffArr
  updatecoeffsH : CoeffArr
  updatecoeffsdispersive : CoeffArr
  updatecoeffsEnbytes : Nat
  updatecoeffsHnbytes : Nat
  ID : IDArr
  Ex : FieldArr
  Ey : FieldArr
  Ez : FieldArr
  Hx : FieldArr
  Hy : FieldArr
  Hz : FieldArr
  Tx : FieldArr
  Ty : FieldArr
  Tz : FieldArr
  pmls : List PML
  waveforms : List String
  voltagesources : List Source
  transmissionlines : List Source
  magneticdipoles : List Source
  hertziandipoles : List Source
  rxs : List Rx
  snapshots : List Snap
  materials : List Material

/-- The external compiled update functions the CPU backend calls, typed by the
arrays the call sites of `updates.py` pass to them.  `update_electric` and
`update_magnetic` come from `gprMax.cython.fields_updates_normal`;
`dispersive_update_a` / `dispersive_update_b` are resolved by
`set_dispersive_updates`.  Modelled from the spec: each kernel writes only the
field components its phase advances (E for the electric kernels, H for the
magnetic one, the auxiliary T state together with E for the dispersive
halves).  `ompthreads` is `config.hostinfo` thread count. -/
structure CPUExts where
  update_electric :
    Nat → Nat → Nat → Nat → CoeffArr → IDArr → FieldTriple → FieldTriple → FieldTriple
  update_magnetic :
    Nat → Nat → Nat → Nat → CoeffArr → IDArr → FieldTriple → FieldTriple → FieldTriple
  dispersive_update_a :
    Nat → Nat → Nat → Nat → Nat → CoeffArr → CoeffArr → IDArr →
      FieldTriple → FieldTriple → FieldTriple → FieldTriple × FieldTriple
  dispersive_update_b :
    Nat → Nat → Nat → Nat → Nat → CoeffArr → IDArr →
      FieldTriple → FieldTriple → FieldTriple × FieldTriple
  ompthreads : Nat

/-- Embeds `CPUUpdates.store_outputs` delegates to `store_outputs(self.grid)` of the
fields-outputs module (outside the two embedded files).  Modelled from the
spec: every receiver records one sample of the six field components at its
cell; nothing else changes. -/
def CPUUpdates.store_outputs (g : Grid) : Grid :=
  { g with
    rxs := g.rxs.map fun r =>
      { r with
        outputs := r.outputs ++
          [(g.Ex r.cell, g.Ey r.cell, g.Ez r.cell,
            g.Hx r.cell, g.Hy r.cell, g.Hz r.cell)] } }

/-- Embeds `CPUUpdates.store_snapshots`: every snapshot whose `time` equals
`iteration + 1` stores the grid. -/
def CPUUpdates.store_snapshots (g : Grid) (iteration : Int) : Grid :=
  { g with
    snapshots := g.snapshots.map fun snap =>
      if snap.time = iteration + 1 then snap.storeCapture else snap }

/-- Embeds `CPUUpdates.update_magnetic`: call the compiled kernel on
`(nx, ny, nz, ompthreads, updatecoeffsH, ID, E, H)`; the new H components are
written back. -/
def CPUUpdates.update_magnetic (ex : CPUExts) (g : Grid) : Grid :=
  let h := ex.update_magnetic g.nx g.ny g.nz ex.ompthreads g.updatecoeffsH g.ID
    (g.Ex, g.Ey, g.Ez) (g.Hx, g.Hy, g.Hz)
  { g with Hx := h.1, Hy := h.2.1, Hz := h.2.2 }

/-- Embeds `CPUUpdates.update_magnetic_pml`: each PML in `grid.pmls`, in list order,
applies its magnetic correction. -/
def CPUUpdates.update_magnetic_pml (g : Grid) : Grid :=
  let r := g.pmls.foldl
    (fun (acc : List PML × FieldTriple) pml =>
      let s := pml.updateMagneticF pml.state acc.2
      (acc.1 ++ [{ pml with state := s.1 }], s.2))
    ([], (g.Hx, g.Hy, g.Hz))
  { g with pmls := r.1, Hx := r.2.1, Hy := r.2.2.1, Hz := r.2.2.2 }

/-- Embeds `CPUUpdates.update_magnetic_sources`: loop over
`transmissionlines + magneticdipoles`, each source updating the H components
at the current (pre-increment) iteration. -/
def CPUUpdates.update_magnetic_sources (g : Grid) : Grid :=
  let h := (g.transmissionlines ++ g.magneticdipoles).foldl
    (fun h s => s.updateMagneticF g.iteration g.updatecoeffsH g.ID h)
    (g.Hx, g.Hy, g.Hz)
  { g with Hx := h.1, Hy := h.2.1, Hz := h.2.2 }

/-- Embeds `CPUUpdates.update_electric_a`: standard non-dispersive update when
`config.materials` maxpoles is zero, otherwise the first half of the
dispersive recurrence (`maxpoles` is the process-wide maximum pole count). -/
def CPUUpdates.update_electric_a (ex : CPUExts) (maxpoles : Nat) (g : Grid) : Grid :=
  if maxpoles = 0 then
    let e := ex.update_electric g.nx g.ny g.nz ex.ompthreads g.updatecoeffsE g.ID
      (g.Ex, g.Ey, g.Ez) (g.Hx, g.Hy, g.Hz)
    { g with Ex := e.1, Ey := e.2.1, Ez := e.2.2 }
  else
    let r := ex.dispersive_update_a g.nx g.ny g.nz ex.ompthreads maxpoles
      g.updatecoeffsE g.updatecoeffsdispersive g.ID
      (g.Tx, g.Ty, g.Tz) (g.Ex, g.Ey, g.Ez) (g.Hx, g.Hy, g.Hz)
    { g with Tx := r.1.1, Ty := r.1.2.1, Tz := r.1.2.2,
             Ex := r.2.1, Ey := r.2.2.1, Ez := r.2.2.2 }

/-- Embeds `CPUUpdates.update_electric_pml`: each PML applies its electric
correction. -/
def CPUUpdates.update_electric_pml (g : Grid) : Grid :=
  let r := g.pmls.foldl
    (fun (acc : List PML × FieldTriple) pml =>
      let s := pml.updateElectricF pml.state acc.2
      (acc.1 ++ [{ pml with state := s.1 }], s.2))
    ([], (g.Ex, g.Ey, g.Ez))
  { g with pmls := r.1, Ex := r.2.1, Ey := r.2.2.1, Ez := r.2.2.2 }

/-- Embeds `CPUUpdates.update_electric_sources`: loop over
`voltagesources + transmissionlines + hertziandipoles` (in that order), each
source updating the E components at the current iteration; afterwards the
iteration counter of the grid is incremented by one. -/
def CPUUpdates.update_electric_sources (g : Grid) : Grid :=
  let e := (g.voltagesources ++ g.transmissionlines ++ g.hertziandipoles).foldl
    (fun e s => s.updateElectricF g.iteration g.updatecoeffsE g.ID e)
    (g.Ex, g.Ey, g.Ez)
  { g with Ex := e.1, Ey := e.2.1, Ez := e.2.2, iteration := g.iteration + 1 }

/-- Embeds `CPUUpdates.update_electric_b`: second half of the dispersive recurrence,
run only when maxpoles is nonzero. -/
def CPUUpdates.update_electric_b (ex : CPUExts) (maxpoles : Nat) (g : Grid) : Grid :=
  if maxpoles ≠ 0 then
    let r := ex.dispersive_update_b g.nx g.ny g.nz ex.ompthreads maxpoles
      g.updatecoeffsdispersive g.ID
      (g.Tx, g.Ty, g.Tz) (g.Ex, g.Ey, g.Ez)
    { g with Tx := r.1.1, Ty := r.1.2.1, Tz := r.1.2.2,
             Ex := r.2.1, Ey := r.2.2.1, Ez := r.2.2.2 }
  else
    g

/-- The state owned by the CUDA backend: the host grid plus the device-mirror
field arrays allocated at initialisation.  None of the per-iteration compute
kernels can ever be launched: `updates.py` never imports numpy, so each
kernel call site evaluates the unbound bare name `np` first and raises
`NameError` (the same class of slip as the unbound `dev` in `__init__`). -/
structure CudaState where
  grid : Grid
  Ex_gpu : FieldArr
  Ey_gpu : FieldArr
  Ez_gpu : FieldArr
  Hx_gpu : FieldArr
  Hy_gpu : FieldArr
  Hz_gpu : FieldArr
  Tx_gpu : FieldArr
  Ty_gpu : FieldArr
  Tz_gpu : FieldArr
  ID_gpu : IDArr

/-- The electric device fields of a CUDA state, grouped. -/
def CudaState.eGpu (st : CudaState) : FieldTriple := (st.Ex_gpu, st.Ey_gpu, st.Ez_gpu)

/-- The magnetic device fields of a CUDA state, grouped. -/
def CudaState.hGpu (st : CudaState) : FieldTriple := (st.Hx_gpu, st.Hy_gpu, st.Hz_gpu)

/-- Write back the electric device fields. -/
def CudaState.setE (st : CudaState) (e : FieldTriple) : CudaState :=
  { st with Ex_gpu := e.1, Ey_gpu := e.2.1, Ez_gpu := e.2.2 }

/-- Write back the magnetic device fields. -/
def CudaState.setH (st : CudaState) (h : FieldTriple) : CudaState :=
  { st with Hx_gpu := h.1, Hy_gpu := h.2.1, Hz_gpu := h.2.2 }

/-- Embeds `CUDAUpdates.store_outputs`: with receivers present the call
evaluates `np.int32(len(self.grid.rxs))` (updates.py line 448) and raises
`NameError` on the unbound name `np` before the kernel can be launched;
with no receivers the body is skipped. -/
def CUDAUpdates.store_outputs (st : CudaState) : Except PyError CudaState :=
  if st.grid.rxs.isEmpty then
    Except.ok st
  else
    Except.error (.nameError "np")

/-- Embeds `CUDAUpdates.store_snapshots`: the loop reaches the kernel call
for the first snapshot whose `time` equals `iteration + 1`, where it
evaluates `np.int32(snapno)` (line 471) and raises `NameError` on the
unbound name `np` - no snapshot kernel is ever launched and no capture
occurs; when no snapshot matches, the loop body never runs. -/
def CUDAUpdates.store_snapshots (st : CudaState) (iteration : Int) :
    Except PyError CudaState :=
  if st.grid.snapshots.any (fun s => s.time = iteration + 1) then
    Except.error (.nameError "np")
  else
    Except.ok st

/-- Embeds `CUDAUpdates.update_magnetic`: the call unconditionally evaluates
`np.int32(self.grid.nx)` (line 507) and raises `NameError` on the unbound
name `np`. -/
def CUDAUpdates.update_magnetic (_st : CudaState) : Except PyError CudaState :=
  Except.error (.nameError "np")

/-- Embeds `CUDAUpdates.update_magnetic_pml`: each PML applies its GPU
magnetic correction (the PML module is external and receives the grid; no
unbound name occurs on this path). -/
def CUDAUpdates.update_magnetic_pml (st : CudaState) : Except PyError CudaState :=
  let r := st.grid.pmls.foldl
    (fun (acc : List PML × FieldTriple) pml =>
      let s := pml.gpuUpdateMagneticF pml.state acc.2
      (acc.1 ++ [{ pml with state := s.1 }], s.2))
    ([], st.hGpu)
  Except.ok { (st.setH r.2) with grid := { st.grid with pmls := r.1 } }

/-- Embeds `CUDAUpdates.update_magnetic_sources`: with magnetic dipoles
present the call evaluates `np.int32(len(self.grid.magneticdipoles))`
(line 528) and raises `NameError` on `np`; otherwise the body is
skipped. -/
def CUDAUpdates.update_magnetic_sources (st : CudaState) : Except PyError CudaState :=
  if st.grid.magneticdipoles.isEmpty then
    Except.ok st
  else
    Except.error (.nameError "np")

/-- Embeds `CUDAUpdates.update_electric_a`: both branches evaluate
`np.int32(self.grid.nx)` first (lines 547 and 563) and raise `NameError`
on `np`. -/
def CUDAUpdates.update_electric_a (maxpoles : Nat) (_st : CudaState) :
    Except PyError CudaState :=
  if maxpoles = 0 then
    Except.error (.nameError "np")
  else
    Except.error (.nameError "np")

/-- Embeds `CUDAUpdates.update_electric_pml`: each PML applies its GPU
electric correction. -/
def CUDAUpdates.update_electric_pml (st : CudaState) : Except PyError CudaState :=
  let r := st.grid.pmls.foldl
    (fun (acc : List PML × FieldTriple) pml =>
      let s := pml.gpuUpdateElectricF pml.state acc.2
      (acc.1 ++ [{ pml with state := s.1 }], s.2))
    ([], st.eGpu)
  Except.ok { (st.setE r.2) with grid := { st.grid with pmls := r.1 } }

/-- Embeds `CUDAUpdates.update_electric_sources`: with voltage sources
present the call evaluates `np.int32(len(self.grid.voltagesources))`
(line 591) and raises `NameError` on `np` before any kernel launch and
before the line-622 increment; likewise line 607 for Hertzian dipoles.
Only when neither kind of source exists does control reach
`self.grid.iteration += 1`. -/
def CUDAUpdates.update_electric_sources (st : CudaState) : Except PyError CudaState :=
  if st.grid.voltagesources.isEmpty then
    if st.grid.hertziandipoles.isEmpty then
      Except.ok { st with grid := { st.grid with iteration := st.grid.iteration + 1 } }
    else
      Except.error (.nameError "np")
  else
    Except.error (.nameError "np")

/-- Embeds `CUDAUpdates.update_electric_b`: with a nonzero maximum pole
count the call evaluates `np.int32(self.grid.nx)` (line 632) and raises
`NameError` on `np`; otherwise the body is skipped. -/
def CUDAUpdates.update_electric_b (maxpoles : Nat) (st : CudaState) :
    Except PyError CudaState :=
  if maxpoles ≠ 0 then
    Except.error (.nameError "np")
  else
    Except.ok st

/-- The nine per-iteration backend operations of the backend contract. -/
inductive BackendOp where
  | magnetic | magneticPml | magneticSources
  | electricA | electricPml | electricSources | electricB
  | outputs | snapshots
deriving DecidableEq, Repr

/-- Dispatch one backend operation on the CPU backend (`idx` is the 0-based
loop index handed to `store_snapshots`). -/
def cpuApplyOp (ex : CPUExts) (maxpoles : Nat) (op : BackendOp) (idx : Int)
    (g : Grid) : Grid :=
  match op with
  | .magnetic => CPUUpdates.update_magnetic ex g
  | .magneticPml => CPUUpdates.update_magnetic_pml g
  | .magneticSources => CPUUpdates.update_magnetic_sources g
  | .electricA => CPUUpdates.update_electric_a ex maxpoles g
  | .electricPml => CPUUpdates.update_electric_pml g
  | .electricSources => CPUUpdates.update_electric_sources g
  | .electricB => CPUUpdates.update_electric_b ex maxpoles g
  | .outputs => CPUUpdates.store_outputs g
  | .snapshots => CPUUpdates.store_snapshots g idx

/-- Dispatch one backend operation on the CUDA backend; every operation is
fallible because of the unbound name `np` in the method bodies. -/
def cudaApplyOp (maxpoles : Nat) (op : BackendOp) (idx : Int)
    (st : CudaState) : Except PyError CudaState :=
  match op with
  | .magnetic => CUDAUpdates.update_magnetic st
  | .magneticPml => CUDAUpdates.update_magnetic_pml st
  | .magneticSources => CUDAUpdates.update_magnetic_sources st
  | .electricA => CUDAUpdates.update_electric_a maxpoles st
  | .electricPml => CUDAUpdates.update_electric_pml st
  | .electricSources => CUDAUpdates.update_electric_sources st
  | .electricB => CUDAUpdates.update_electric_b maxpoles st
  | .outputs => CUDAUpdates.store_outputs st
  | .snapshots => CUDAUpdates.store_snapshots st idx

/-- Modelled from the spec: one iteration of the update engine applies the
nine backend operations in the fixed total order of the spec (magnetic update,
magnetic boundary, magnetic sources, electric phase A, electric boundary,
electric sources, electric phase B, output capture, snapshot capture), with
`store_snapshots` receiving the 0-based index of the iteration being run. -/
def cpuIteration (ex : CPUExts) (maxpoles : Nat) (idx : Int) (g : Grid) : Grid :=
  CPUUpdates.store_snapshots
    (CPUUpdates.store_outputs
      (CPUUpdates.update_electric_b ex maxpoles
        (CPUUpdates.update_electric_sources
          (CPUUpdates.update_electric_pml
            (CPUUpdates.update_electric_a ex maxpoles
              (CPUUpdates.update_magnetic_sources
                (CPUUpdates.update_magnetic_pml
                  (CPUUpdates.update_magnetic ex g))))))))
    idx

/-- Modelled from the spec: the iteration loop runs `cpuIteration` for the
0-based indices `0, 1, ..., n - 1`. -/
def cpuRun (ex : CPUExts) (maxpoles : Nat) (g : Grid) : Nat → Grid
  | 0 => g
  | n + 1 => cpuIteration ex maxpoles n (cpuRun ex maxpoles g n)

/-! ## `cmds_multiple.py`: creation commands

The create methods receive their keyword arguments already extracted (a
missing-key `CmdInputError` corresponds to absent arguments and is outside the
claims); `uip.check_src_rx_point` and `uip.check_box_points` (input-parameter
checking, outside the two embedded files) are modelled per the spec as
returning the already validated discretised coordinates. -/

/-- The polarisation/mode compatibility checks shared by the four source
create methods (`2D TMx` forces x, `2D TMy` forces y, `2D TMz` forces z). -/
def polModeBad (mode : Mode) (pol : Pol) : Bool :=
  (mode = Mode.twoDTMx && (pol = Pol.y || pol = Pol.z)) ||
  (mode = Mode.twoDTMy && (pol = Pol.x || pol = Pol.z)) ||
  (mode = Mode.twoDTMz && (pol = Pol.x || pol = Pol.y))

/-- The start/stop handling block shared textually by the four source create
methods: with explicit `start` and `stop`, reject negative values and a
non-positive duration, then clamp `stop` to the time window of the grid; with the
parameters absent, default to the full time window. -/
def sourceTimes (g : Grid) (startstop : Option (Rat × Rat)) :
    Except PyError (Rat × Rat) :=
  match startstop with
  | some (start, stop) =>
    if start < 0 then
      Except.error (.cmdInputError "delay of the initiation of the source should not be less than zero")
    else if stop < 0 then
      Except.error (.cmdInputError "time to remove the source should not be less than zero")
    else if stop - start ≤ 0 then
      Except.error (.cmdInputError "duration of the source should not be zero or less")
    else
      Except.ok (start, if stop > g.timewindow then g.timewindow else stop)
  | none => Except.ok (0, g.timewindow)

/-- Embeds `VoltageSource.create`: polarisation/mode checks, the source position,
non-negative resistance, waveform lookup, the start/stop block, then append
the new source to `grid.voltagesources`. -/
def VoltageSource.create (g : Grid) (pol : Pol) (p1 : Int × Int × Int)
    (resistance : Rat) (waveformId : String)
    (startstop : Option (Rat × Rat)) : Except PyError Grid :=
  if polModeBad g.mode pol then
    Except.error (.cmdInputError "polarisation incompatible with 2D mode")
  else if resistance < 0 then
    Except.error (.cmdInputError "requires a source resistance of zero or greater")
  else if !(g.waveforms.contains waveformId) then
    Except.error (.cmdInputError "there is no waveform with the identifier")
  else
    (sourceTimes g startstop).map fun r =>
      { g with
        voltagesources := g.voltagesources ++
          [{ polarisation := pol, xcoord := p1.1, ycoord := p1.2.1,
             zcoord := p1.2.2, resistance := resistance,
             waveformID := waveformId, start := r.1, stop := r.2 }] }

/-- Embeds `HertzianDipole.create`: polarisation/mode checks, the source position,
waveform lookup, the dipole length set from the grid step along the
polarisation axis (`hertzianDl`), the start/stop block, then append to
`grid.hertziandipoles`. -/
def hertzianDl (g : Grid) (pol : Pol) : Rat :=
  match pol with
  | Pol.x => g.dx
  | Pol.y => g.dy
  | Pol.z => g.dz

def HertzianDipole.create (g : Grid) (pol : Pol) (p1 : Int × Int × Int)
    (waveformId : String) (startstop : Option (Rat × Rat)) :
    Except PyError Grid :=
  if polModeBad g.mode pol then
    Except.error (.cmdInputError "polarisation incompatible with 2D mode")
  else if !(g.waveforms.contains waveformId) then
    Except.error (.cmdInputError "there is no waveform with the identifier")
  else
    let dl := hertzianDl g pol
    (sourceTimes g startstop).map fun r =>
      { g with
        hertziandipoles := g.hertziandipoles ++
          [{ polarisation := pol, xcoord := p1.1, ycoord := p1.2.1,
             zcoord := p1.2.2, dl := dl,
             waveformID := waveformId, start := r.1, stop := r.2 }] }

/-- Embeds `MagneticDipole.create`: polarisation/mode checks, the source position,
waveform lookup, the start/stop block, then append to
`grid.magneticdipoles`. -/
def MagneticDipole.create (g : Grid) (pol : Pol) (p1 : Int × Int × Int)
    (waveformId : String) (startstop : Option (Rat × Rat)) :
    Except PyError Grid :=
  if polModeBad g.mode pol then
    Except.error (.cmdInputError "polarisation incompatible with 2D mode")
  else if !(g.waveforms.contains waveformId) then
    Except.error (.cmdInputError "there is no waveform with the identifier")
  else
    (sourceTimes g startstop).map fun r =>
      { g with
        magneticdipoles := g.magneticdipoles ++
          [{ polarisation := pol, xcoord := p1.1, ycoord := p1.2.1,
             zcoord := p1.2.2,
             waveformID := waveformId, start := r.1, stop := r.2 }] }

/-- Embeds `TransmissionLine.create`: reject any model with a GPU; then
polarisation/mode checks and the source position.  The resistance check at
cmds_multiple.py line 432 reads `resistance <= 0 or resistance >= z0`, but
the bare name `z0` is neither imported nor defined anywhere in the module:
a non-positive resistance short-circuits the `or` and raises the resistance
`CmdInputError`, while any positive resistance evaluates `z0` and raises
`NameError`.  The waveform lookup, the start/stop block and the append are
therefore unreachable. -/
def TransmissionLine.create (g : Grid) (pol : Pol) (p1 : Int × Int × Int)
    (resistance : Rat) (_waveformId : String)
    (_startstop : Option (Rat × Rat)) : Except PyError Grid :=
  if g.gpu.isSome then
    Except.error (.cmdInputError "a transmission line cannot currently be used with GPU solving")
  else if polModeBad g.mode pol then
    Except.error (.cmdInputError "polarisation incompatible with 2D mode")
  else if resistance ≤ 0 then
    Except.error (.cmdInputError "requires a resistance greater than zero and less than the impedance of free space")
  else
    Except.error (.nameError "z0")

/-- Embeds `Snapshot.create`: reject subgrids; resolve the target iteration either
directly from the `iterations` keyword or from a positive `time` value via the
external rounding utility `round_value` (utilities module, outside the two
embedded files, passed in as `roundValue`); reject negative strides, strides
below one, and a target iteration that is non-positive or beyond the total
iteration count of the run; otherwise append the new snapshot. -/
def Snapshot.create (g : Grid) (p1 p2 : Int × Int × Int)
    (dx dy dz : Int) (filename : String)
    (iterationsArg : Option Int) (timeArg : Option Rat)
    (roundValue : Rat → Int) : Except PyError Grid :=
  if g.isSubGrid then
    Except.error (.cmdInputError "do not add Snapshots to Subgrids")
  else
    let resolved : Except PyError Int :=
      match iterationsArg with
      | some n => Except.ok n
      | none =>
        match timeArg with
        | none => Except.error (.cmdInputError "requires exactly 5 parameters")
        | some time =>
          if time > 0 then
            Except.ok (roundValue (time / g.dt) + 1)
          else
            Except.error (.cmdInputError "time value must be greater than zero")
    match resolved with
    | Except.error e => Except.error e
    | Except.ok n =>
      if dx < 0 || dy < 0 || dz < 0 then
        Except.error (.cmdInputError "the step size should not be less than zero")
      else if dx < 1 || dy < 1 || dz < 1 then
        Except.error (.cmdInputError "the step size should not be less than the spatial discretisation")
      else if n ≤ 0 || n > g.iterations then
        Except.error (.cmdInputError "time value is not valid")
      else
        Except.ok { g with
          snapshots := g.snapshots ++
            [{ time := n, xs := p1.1, ys := p1.2.1, zs := p1.2.2,
               xf := p2.1, yf := p2.2.1, zf := p2.2.2,
               dx := dx, dy := dy, dz := dz, filename := filename }] }

/-- The per-pole validation loop of `AddDebyeDispersion.create`: the relaxation time of each pole must be positive (the code explicitly does not compare it with
the time step); on success the pole parameters are appended to the material lists
`deltaer` / `tau`. -/
def debyePoles (dt : Rat) : List (Rat × Rat) → Except PyError (List Rat × List Rat)
  | [] => Except.ok ([], [])
  | (erDelta, tau) :: rest =>
    if tau > 0 then
      (debyePoles dt rest).map (fun r => (erDelta :: r.1, tau :: r.2))
    else
      Except.error (.cmdInputError "requires positive values for the permittivity difference")

/-- The per-pole validation loop of `AddLorentzDispersion.create`: each pole
needs a positive permittivity difference and both timescale parameters
(`omega`, `delta`) strictly greater than the grid time step. -/
def lorentzPoles (dt : Rat) :
    List (Rat × Rat × Rat) → Except PyError (List Rat × List Rat × List Rat)
  | [] => Except.ok ([], [], [])
  | (erDelta, tau, alpha) :: rest =>
    if erDelta > 0 ∧ tau > dt ∧ alpha > dt then
      (lorentzPoles dt rest).map (fun r => (erDelta :: r.1, tau :: r.2.1, alpha :: r.2.2))
    else
      Except.error (.cmdInputError "requires positive values for the permittivity difference and frequencies, and associated times that are greater than the time step for the model")

/-- The per-pole validation loop of `AddDrudeDispersion.create`: each pole
needs a positive frequency parameter `tau` and a relaxation parameter `alpha`
strictly greater than the grid time step. -/
def drudePoles (dt : Rat) :
    List (Rat × Rat) → Except PyError (List Rat × List Rat)
  | [] => Except.ok ([], [])
  | (tau, alpha) :: rest =>
    if tau > 0 ∧ alpha > dt then
      (drudePoles dt rest).map (fun r => (tau :: r.1, alpha :: r.2))
    else
      Except.error (.cmdInputError "requires positive values for the frequencies, and associated times that are greater than the time step for the model")

/-- The material lookup shared by the three add-dispersion commands:
`[y for x in material_ids for y in grid.materials if y.ID == x]`. -/
def lookupMaterials (g : Grid) (ids : List String) : List Material :=
  ids.foldr (fun x acc => g.materials.filter (fun y => y.ID = x) ++ acc) []

/-- Embeds `AddDebyeDispersion.create`: look up the requested materials; the
pole loop lives inside `for material in materials:`, so with no materials
named the command performs no validation at all and succeeds; otherwise each
found material is marked as Debye and the per-pole validation runs on the
`er_delta` / `tau` parameter lists (paired per pole), extending the material
lists - identically for every found material, since the pole parameters are
shared (material IDs are unique, enforced at `#material` creation).  A
failed pole aborts with `CmdInputError`.  The updated `MaterialUser.maxpoles`
class attribute is returned alongside the grid. -/
def AddDebyeDispersion.create (g : Grid) (polesParams : List (Rat × Rat))
    (materialIds : List String) (maxpoles : Nat) :
    Except PyError (Grid × Nat) :=
  let found := lookupMaterials g materialIds
  if found.length ≠ materialIds.length then
    Except.error (.cmdInputError "material(s) do not exist")
  else if found.isEmpty then
    Except.ok (g, maxpoles)
  else
    match debyePoles g.dt polesParams with
    | Except.error e => Except.error e
    | Except.ok (ds, ts) =>
      let touched := fun (m : Material) =>
        { m with type := "debye", poles := polesParams.length,
                 averagable := false,
                 deltaer := m.deltaer ++ ds, tau := m.tau ++ ts }
      Except.ok
        ({ g with
           materials := g.materials.map fun m =>
             if materialIds.contains m.ID then touched m else m },
         max maxpoles polesParams.length)

/-- Embeds `AddLorentzDispersion.create`: as for Debye, with per-pole parameters
`(er_delta, omega, delta)` and the Lorentz validation loop. -/
def AddLorentzDispersion.create (g : Grid)
    (polesParams : List (Rat × Rat × Rat)) (materialIds : List String)
    (maxpoles : Nat) : Except PyError (Grid × Nat) :=
  let found := lookupMaterials g materialIds
  if found.length ≠ materialIds.length then
    Except.error (.cmdInputError "material(s) do not exist")
  else if found.isEmpty then
    Except.ok (g, maxpoles)
  else
    match lorentzPoles g.dt polesParams with
    | Except.error e => Except.error e
    | Except.ok (ds, ts, als) =>
      let touched := fun (m : Material) =>
        { m with type := "lorentz", poles := polesParams.length,
                 averagable := false,
                 deltaer := m.deltaer ++ ds, tau := m.tau ++ ts,
                 alpha := m.alpha ++ als }
      Except.ok
        ({ g with
           materials := g.materials.map fun m =>
             if materialIds.contains m.ID then touched m else m },
         max maxpoles polesParams.length)

/-- Embeds `AddDrudeDispersion.create`: as for Debye, with per-pole parameters
`(tau, alpha)` and the Drude validation loop. -/
def AddDrudeDispersion.create (g : Grid) (polesParams : List (Rat × Rat))
    (materialIds : List String) (maxpoles : Nat) :
    Except PyError (Grid × Nat) :=
  let found := lookupMaterials g materialIds
  if found.length ≠ materialIds.length then
    Except.error (.cmdInputError "material(s) do not exist")
  else if found.isEmpty then
    Except.ok (g, maxpoles)
  else
    match drudePoles g.dt polesParams with
    | Except.error e => Except.error e
    | Except.ok (ts, als) =>
      let touched := fun (m : Material) =>
        { m with type := "drude", poles := polesParams.length,
                 averagable := false,
                 tau := m.tau ++ ts, alpha := m.alpha ++ als }
      Except.ok
        ({ g with
           materials := g.materials.map fun m =>
             if materialIds.contains m.ID then touched m else m },
         max maxpoles polesParams.length)

/-- Embeds `PMLCFS.__init__`: increment the process-wide `PMLCFS.count` class
attribute, then raise `CmdInputError` exactly when the incremented count
equals two.  The count is incremented even on the raising path, since the
increment precedes the raise. -/
def PMLCFS.initStep (count : Nat) : Nat × Except PyError Unit :=
  let count := count + 1
  (count,
   if count = 2 then
     Except.error (.cmdInputError "can only be used up to two times, for up to a 2nd order PML")
   else
     Except.ok ())

/-- The class-attribute state and outcome after the k-th `PMLCFS` creation in
one process (creations are numbered from 1; `pmlcfsCreation 0` is the fresh
process state). -/
def pmlcfsCreation : Nat → Nat × Except PyError Unit
  | 0 => (0, Except.ok ())
  | k + 1 => PMLCFS.initStep (pmlcfsCreation k).1

/-! ## Python name resolution in `CUDAUpdates.__init__` and
`CUDAUpdates.set_field_kernels`

`updates.py` references several names that are bound neither in the enclosing
local scope nor at module level; executing those statements raises
`NameError`.  The embedding lists, for every statement executed, the bare
names it reads (attribute accesses such as `self.grid` resolve through
objects, not through scope, so only the base name counts) and the local names
it binds, and runs them in order against the global names of the module. -/

/-- One executed Python statement: the bare names it reads, in evaluation
order, and the local names it binds. -/
structure PyStmt where
  reads : List String
  binds : List String
deriving DecidableEq, Repr

/-- The module-level names of `updates.py`: its imports and its top-level
definitions. -/
def updatesModuleGlobals : List String :=
  ["import_module", "logging", "sys", "config",
   "kernel_template_fields", "kernel_template_store_snapshot",
   "kernel_template_sources", "update_electric", "update_magnetic",
   "store_outputs", "gpu_initialise_rx_arrays", "gpu_get_rx_array",
   "Snapshot", "gpu_initialise_snapshot_array", "gpu_get_snapshot_array",
   "gpu_initialise_src_arrays", "timer", "log", "CPUUpdates", "CUDAUpdates"]

/-- Execute a statement list: the first read of a name bound neither locally
nor at module level raises `NameError` for that name. -/
def runStmts (globals : List String) : List String → List PyStmt → Except PyError Unit
  | _, [] => Except.ok ()
  | locals, s :: rest =>
    match s.reads.find? (fun n => !(locals.contains n || globals.contains n)) with
    | some n => Except.error (.nameError n)
    | none => runStmts globals (locals ++ s.binds) rest

/-- The statements of `CUDAUpdates.__init__` (updates.py lines 243..273), in
order, with the bare names each reads and binds.  `self` and `G` are the
parameters; the two imports bind `drv` and `SourceModule` as locals of
`__init__` only.  Line 266 reads the name `dev`, which is bound nowhere (the
device handle was assigned to the attribute `self.dev`, not to a local). -/
def cudaInitStmts : List PyStmt :=
  [⟨["G"], []⟩,                    -- self.grid = G
   ⟨[], []⟩,                       -- self.dispersive_update_a = None
   ⟨[], []⟩,                       -- self.dispersive_update_b = None
   ⟨[], ["drv"]⟩,                  -- import pycuda.driver as drv
   ⟨[], ["SourceModule"]⟩,         -- from pycuda.compiler import SourceModule
   ⟨["drv"], []⟩,                  -- drv.init()
   ⟨["log"], []⟩,                  -- log.debug(...)
   ⟨["sys"], []⟩,                  -- if sys.platform == win32 / else
   ⟨[], []⟩,                       -- self.compiler_opts = ...
   ⟨["drv"], []⟩,                  -- self.dev = drv.Device(self.grid.gpu.deviceID)
   ⟨["dev"], []⟩,                  -- self.ctx = dev.make_context()
   ⟨[], []⟩]                       -- self.set_field_kernels() ... (method calls)

/-- Run `CUDAUpdates.__init__` for a grid: name resolution of its statement
list with parameters `self` and `G` bound (assuming the two pycuda imports
succeed; any import failure would abort even earlier). -/
def CUDAUpdates.initRun (_G : Grid) : Except PyError Unit :=
  runStmts updatesModuleGlobals ["self", "G"] cudaInitStmts

/-- The statements of `CUDAUpdates.set_field_kernels` (updates.py lines
275..329) up to and including the constant-memory capacity check.  The method
body reads `SourceModule`, `kernels_template_fields`, `cudafloattype` and
`cudacomplextype`, none of which is bound in its scope (`SourceModule` is a
local of `__init__`; the module imports `kernel_template_fields`, without the
plural s; the two dtype names are never defined), and the raising branch of
the capacity check reads the likewise unbound `GeneralError` and
`human_size`. -/
def setFieldKernelsStmts : List PyStmt :=
  [⟨["config"], []⟩,               -- if config.materials[maxpoles] > 0:
   ⟨["SourceModule", "kernels_template_fields", "cudafloattype",
     "cudacomplextype"], ["kernels_fields"]⟩,  -- kernels_fields = SourceModule(...)
   ⟨["kernels_fields"], []⟩,       -- self.update_electric = ...get_function(...)
   ⟨["kernels_fields"], []⟩,       -- self.update_magnetic = ...get_function(...)
   ⟨["GeneralError", "log", "human_size"], []⟩]  -- capacity check raise path

/-- Run `CUDAUpdates.set_field_kernels` on its own: name resolution of its
statement list with only `self` bound. -/
def CUDAUpdates.setFieldKernelsRun : Except PyError Unit :=
  runStmts updatesModuleGlobals ["self"] setFieldKernelsStmts

/-- The constant-memory capacity condition of `set_field_kernels`
(updates.py line 317): the two coefficient tables together exceed the
constant memory of the GPU. -/
def constMemExceeded (g : Grid) : Bool :=
  match g.gpu with
  | some gpu => decide (g.updatecoeffsEnbytes + g.updatecoeffsHnbytes > gpu.constmem)
  | none => false

/-! ## Concrete instances for witnesses and counterexamples -/

/-- A minimal concrete grid. -/
def baseGrid : Grid :=
  { nx := 1, ny := 1, nz := 1
    dx := 1, dy := 1, dz := 1
    dt := 1
    timewindow := 10
    iterations := 100
    iteration := 0
    mode := Mode.threeD
    isSubGrid := false
    gpu := none
    snapsgpu2cpu := false
    updatecoeffsE := fun _ => 0
    updatecoeffsH := fun _ => 0
    updatecoeffsdispersive := fun _ => 0
    updatecoeffsEnbytes := 0
    updatecoeffsHnbytes := 0
    ID := fun _ => 0
    Ex := fun _ => 0, Ey := fun _ => 0, Ez := fun _ => 0
    Hx := fun _ => 0, Hy := fun _ => 0, Hz := fun _ => 0
    Tx := fun _ => 0, Ty := fun _ => 0, Tz := fun _ => 0
    pmls := []
    waveforms := ["mywave"]
    voltagesources := []
    transmissionlines := []
    magneticdipoles := []
    hertziandipoles := []
    rxs := []
    snapshots := []
    materials := [{ ID := "m1" }] }

/-- A grid whose two coefficient tables together exceed the 64 KiB of
constant memory. -/
def overBudgetGrid : Grid :=
  { baseGrid with
    gpu := some { deviceID := 0, constmem := 65536, name := "TestGPU" }
    updatecoeffsEnbytes := 40000
    updatecoeffsHnbytes := 40000 }

/-- A grid whose time step is larger than the Debye pole parameters used in
the C7 counterexample. -/
def debyeGrid : Grid := { baseGrid with dt := 2 }

/-! ## Small helpers on `Except` -/

/-- The value of a successful computation, `none` on an exception. -/
def exceptValue {α : Type} : Except PyError α → Option α
  | Except.error _ => none
  | Except.ok a => some a

/-- Whether a computation raised a `CmdInputError`. -/
def raisedCmdInputError {α : Type} : Except PyError α → Bool
  | Except.error (.cmdInputError _) => true
  | _ => false

theorem isOk_of_exceptValue_some {α : Type} {e : Except PyError α} {a : α}
    (h : exceptValue e = some a) : e.isOk = true := by
  cases e with
  | error err => simp [exceptValue] at h
  | ok b => rfl

/-! ## Claims C10 and C4: accelerator backend initialisation -/

/-- Claim C10: for every grid, constructing the accelerator backend
(`CUDAUpdates.__init__`) raises a `NameError` before completing
initialisation, because line 266 creates the device context through the
unbound name `dev` rather than the attribute `self.dev`; consequently no
`CUDAUpdates` instance can be obtained through the public constructor. -/
theorem claim_C10 (g : Grid) :
    CUDAUpdates.initRun g = Except.error (.nameError "dev") := rfl

/-- Claim C4 (code bug): a grid whose electric and magnetic coefficient
tables together exceed the constant memory of the accelerator does satisfy the
line-317 capacity condition, yet accelerator backend initialisation never
raises the capacity-exceeded `GeneralError`: `__init__` raises `NameError`
on the unbound name `dev` before `set_field_kernels` is ever called, and
`set_field_kernels` run on its own would raise `NameError` on the unbound
name `SourceModule` (line 280) before reaching the line-317 check. -/
theorem claim_C4 :
    constMemExceeded overBudgetGrid = true ∧
    CUDAUpdates.initRun overBudgetGrid = Except.error (.nameError "dev") ∧
    CUDAUpdates.setFieldKernelsRun = Except.error (.nameError "SourceModule") :=
  ⟨rfl, rfl, rfl⟩

/-! ## Claim C6: `#pml_cfs` creation count -/

/-- Claim C6 (code bug): in one process the first `#pml_cfs` creation
succeeds, the second raises `CmdInputError` (the `count == 2` test fires),
and the third and fourth creations succeed again - instead of the first two
succeeding and every later creation being rejected, as the own
error message of the command (up to two uses) describes. -/
theorem claim_C6 :
    (pmlcfsCreation 1).2 = Except.ok () ∧
    (pmlcfsCreation 2).2 = Except.error
      (.cmdInputError "can only be used up to two times, for up to a 2nd order PML") ∧
    (pmlcfsCreation 3).2 = Except.ok () ∧
    (pmlcfsCreation 4).2 = Except.ok () :=
  ⟨rfl, rfl, rfl, rfl⟩

/-! ## Claim C7: add-dispersion pole validation -/

theorem isOk_ok {α : Type} (a : α) :
    (Except.ok a : Except PyError α).isOk = true := rfl

theorem isOk_error {α : Type} (e : PyError) :
    (Except.error e : Except PyError α).isOk = false := rfl

theorem isOk_map {α β : Type} (f : α → β) (e : Except PyError α) :
    (e.map f).isOk = e.isOk := by
  cases e <;> rfl

theorem debyePoles_isOk (dt : Rat) (ps : List (Rat × Rat)) :
    (debyePoles dt ps).isOk = true ↔ ∀ p ∈ ps, 0 < p.2 := by
  induction ps with
  | nil => simp [debyePoles, isOk_ok]
  | cons p rest ih =>
    by_cases h : (0 : Rat) < p.2
    · simp only [debyePoles, if_pos h, isOk_map, List.mem_cons]
      constructor
      · intro hOk q hq
        rcases hq with hq | hq
        · subst hq; exact h
        · exact (ih.mp hOk) q hq
      · intro hAll
        exact ih.mpr fun q hq => hAll q (Or.inr hq)
    · simp only [debyePoles, if_neg h, isOk_error, Bool.false_eq_true,
        false_iff]
      intro hAll
      exact h (hAll p (List.mem_cons_self p rest))

theorem lorentzPoles_isOk (dt : Rat) (ps : List (Rat × Rat × Rat)) :
    (lorentzPoles dt ps).isOk = true ↔
      ∀ p ∈ ps, 0 < p.1 ∧ dt < p.2.1 ∧ dt < p.2.2 := by
  induction ps with
  | nil => simp [lorentzPoles, isOk_ok]
  | cons p rest ih =>
    by_cases h : (0 : Rat) < p.1 ∧ dt < p.2.1 ∧ dt < p.2.2
    · simp only [lorentzPoles, if_pos h, isOk_map, List.mem_cons]
      constructor
      · intro hOk q hq
        rcases hq with hq | hq
        · subst hq; exact h
        · exact (ih.mp hOk) q hq
      · intro hAll
        exact ih.mpr fun q hq => hAll q (Or.inr hq)
    · simp only [lorentzPoles, if_neg h, isOk_error, Bool.false_eq_true,
        false_iff]
      intro hAll
      exact h (hAll p (List.mem_cons_self p rest))

theorem drudePoles_isOk (dt : Rat) (ps : List (Rat × Rat)) :
    (drudePoles dt ps).isOk = true ↔ ∀ p ∈ ps, 0 < p.1 ∧ dt < p.2 := by
  induction ps with
  | nil => simp [drudePoles, isOk_ok]
  | cons p rest ih =>
    by_cases h : (0 : Rat) < p.1 ∧ dt < p.2
    · simp only [drudePoles, if_pos h, isOk_map, List.mem_cons]
      constructor
      · intro hOk q hq
        rcases hq with hq | hq
        · subst hq; exact h
        · exact (ih.mp hOk) q hq
      · intro hAll
        exact ih.mpr fun q hq => hAll q (Or.inr hq)
    · simp only [drudePoles, if_neg h, isOk_error, Bool.false_eq_true,
        false_iff]
      intro hAll
      exact h (hAll p (List.mem_cons_self p rest))

/-- Claim C7 counterexample: a Debye pole whose permittivity difference is
negative and whose relaxation time is smaller than the grid time step is
accepted: creation succeeds, so Debye pole parameters are neither required
to be positive nor validated against dt, refuting the claim as stated. -/
theorem claim_C7_counterexample :
    (-1 : Rat) < 0 ∧ (1 : Rat) < debyeGrid.dt ∧
    (AddDebyeDispersion.create debyeGrid [((-1 : Rat), (1 : Rat))] ["m1"] 0).isOk
      = true :=
  ⟨by norm_num, by norm_num [debyeGrid, baseGrid], rfl⟩

/-- Claim C7 (amended): for a command naming at least one existing material,
Lorentz creation succeeds exactly when every pole has a positive permittivity
difference and both timescale parameters strictly exceed the grid time step,
and Drude creation succeeds exactly when every pole has a positive frequency
parameter and a relaxation parameter strictly exceeding the time step; but
Debye pole validation only requires the relaxation time of each pole to be
positive - the permittivity difference is not validated at all, and no Debye
parameter is compared with the time step.  A command naming no materials
performs no pole validation at all (the validation loop is inside
`for material in materials:`) and always succeeds. -/
theorem claim_C7 (dt : Rat) (debye drude : List (Rat × Rat))
    (lorentz : List (Rat × Rat × Rat)) (g : Grid) (ids : List String)
    (mp : Nat) :
    ((debyePoles dt debye).isOk = true ↔ ∀ p ∈ debye, 0 < p.2) ∧
    ((lorentzPoles dt lorentz).isOk = true ↔
      ∀ p ∈ lorentz, 0 < p.1 ∧ dt < p.2.1 ∧ dt < p.2.2) ∧
    ((drudePoles dt drude).isOk = true ↔ ∀ p ∈ drude, 0 < p.1 ∧ dt < p.2) ∧
    ((AddDebyeDispersion.create g debye ids mp).isOk = true ↔
      (lookupMaterials g ids).length = ids.length ∧
        ((lookupMaterials g ids).isEmpty = true ∨
          (debyePoles g.dt debye).isOk = true)) ∧
    ((AddLorentzDispersion.create g lorentz ids mp).isOk = true ↔
      (lookupMaterials g ids).length = ids.length ∧
        ((lookupMaterials g ids).isEmpty = true ∨
          (lorentzPoles g.dt lorentz).isOk = true)) ∧
    ((AddDrudeDispersion.create g drude ids mp).isOk = true ↔
      (lookupMaterials g ids).length = ids.length ∧
        ((lookupMaterials g ids).isEmpty = true ∨
          (drudePoles g.dt drude).isOk = true)) := by
  refine ⟨debyePoles_isOk dt debye, lorentzPoles_isOk dt lorentz,
    drudePoles_isOk dt drude, ?_, ?_, ?_⟩
  · by_cases hlen : (lookupMaterials g ids).length = ids.length
    · by_cases hemp : (lookupMaterials g ids).isEmpty = true
      · simp [AddDebyeDispersion.create, hlen, hemp, isOk_ok]
      · cases hrec : debyePoles g.dt debye with
        | error e =>
          simp [AddDebyeDispersion.create, hlen, hemp, hrec, isOk_error]
        | ok v =>
          simp [AddDebyeDispersion.create, hlen, hemp, hrec, isOk_ok]
    · simp [AddDebyeDispersion.create, hlen, isOk_error]
  · by_cases hlen : (lookupMaterials g ids).length = ids.length
    · by_cases hemp : (lookupMaterials g ids).isEmpty = true
      · simp [AddLorentzDispersion.create, hlen, hemp, isOk_ok]
      · cases hrec : lorentzPoles g.dt lorentz with
        | error e =>
          simp [AddLorentzDispersion.create, hlen, hemp, hrec, isOk_error]
        | ok v =>
          simp [AddLorentzDispersion.create, hlen, hemp, hrec, isOk_ok]
    · simp [AddLorentzDispersion.create, hlen, isOk_error]
  · by_cases hlen : (lookupMaterials g ids).length = ids.length
    · by_cases hemp : (lookupMaterials g ids).isEmpty = true
      · simp [AddDrudeDispersion.create, hlen, hemp, isOk_ok]
      · cases hrec : drudePoles g.dt drude with
        | error e =>
          simp [AddDrudeDispersion.create, hlen, hemp, hrec, isOk_error]
        | ok v =>
          simp [AddDrudeDispersion.create, hlen, hemp, hrec, isOk_ok]
    · simp [AddDrudeDispersion.create, hlen, isOk_error]

/-! ## Claim C8: source start/stop validation and clamping -/

theorem exceptValue_map {α β : Type} (f : α → β) (e : Except PyError α) :
    exceptValue (e.map f) = (exceptValue e).map f := by
  cases e <;> rfl

theorem raised_map {α β : Type} (f : α → β) (e : Except PyError α) :
    raisedCmdInputError (e.map f) = raisedCmdInputError e := by
  cases e with
  | error err => cases err <;> rfl
  | ok v => rfl

theorem clamp_eq_min (g : Grid) (stop : Rat) :
    (if stop > g.timewindow then g.timewindow else stop) = min stop g.timewindow := by
  by_cases h : g.timewindow < stop
  · rw [if_pos h, min_eq_right h.le]
  · rw [if_neg h, min_eq_left (not_lt.mp h)]

theorem sourceTimes_value (g : Grid) (start stop : Rat) :
    exceptValue (sourceTimes g (some (start, stop))) =
      (if start < 0 ∨ stop < 0 ∨ stop - start ≤ 0 then none
       else some (start, min stop g.timewindow)) := by
  by_cases h1 : start < 0
  · simp [sourceTimes, h1, exceptValue]
  · by_cases h2 : stop < 0
    · simp [sourceTimes, h1, h2, exceptValue]
    · by_cases h3 : stop - start ≤ 0
      · simp [sourceTimes, h1, h2, h3, exceptValue]
      · simp [sourceTimes, h1, h2, h3, exceptValue, clamp_eq_min]

theorem sourceTimes_raised (g : Grid) (start stop : Rat) :
    raisedCmdInputError (sourceTimes g (some (start, stop))) = true ↔
      (start < 0 ∨ stop < 0 ∨ stop - start ≤ 0) := by
  by_cases h1 : start < 0
  · simp [sourceTimes, h1, raisedCmdInputError]
  · by_cases h2 : stop < 0
    · simp [sourceTimes, h1, h2, raisedCmdInputError]
    · by_cases h3 : stop - start ≤ 0
      · simp [sourceTimes, h1, h2, h3, raisedCmdInputError]
      · simp [sourceTimes, h1, h2, h3, raisedCmdInputError]

theorem sourceTimes_none (g : Grid) :
    sourceTimes g none = Except.ok (0, g.timewindow) := rfl

/-- Claim C8 (code bug): for the voltage-source, Hertzian-dipole and
magnetic-dipole commands, with the other parameters valid, creation with
explicit start and stop raises a `CmdInputError` exactly when `start < 0`,
`stop < 0` or `stop - start ≤ 0`, otherwise stores the given start and the
stop clamped to `min stop timewindow`, and with start/stop omitted stores
the whole time window; but the transmission-line command can never reach its
start/stop block: its resistance check (cmds_multiple.py line 432) compares
against the unbound name `z0`, so any positive resistance raises `NameError`
and a non-positive resistance raises the resistance `CmdInputError`,
whatever the start/stop values are. -/
theorem claim_C8 (g : Grid) (pol : Pol) (p1 : Int × Int × Int) (r r2 : Rat)
    (wid : String) (start stop : Rat)
    (hpm : polModeBad g.mode pol = false)
    (hw : g.waveforms.contains wid = true)
    (hr : 0 ≤ r) (hgpu : g.gpu = none) (hrpos : 0 < r) (hr2 : r2 ≤ 0) :
    (exceptValue (VoltageSource.create g pol p1 r wid (some (start, stop))) =
      (if start < 0 ∨ stop < 0 ∨ stop - start ≤ 0 then none
       else some { g with voltagesources := g.voltagesources ++
         [{ polarisation := pol, xcoord := p1.1, ycoord := p1.2.1,
            zcoord := p1.2.2, resistance := r, waveformID := wid,
            start := start, stop := min stop g.timewindow }] })) ∧
    (raisedCmdInputError (VoltageSource.create g pol p1 r wid (some (start, stop))) = true ↔
      (start < 0 ∨ stop < 0 ∨ stop - start ≤ 0)) ∧
    (VoltageSource.create g pol p1 r wid none =
      Except.ok { g with voltagesources := g.voltagesources ++
        [{ polarisation := pol, xcoord := p1.1, ycoord := p1.2.1,
           zcoord := p1.2.2, resistance := r, waveformID := wid,
           start := 0, stop := g.timewindow }] }) ∧
    (exceptValue (HertzianDipole.create g pol p1 wid (some (start, stop))) =
      (if start < 0 ∨ stop < 0 ∨ stop - start ≤ 0 then none
       else some { g with hertziandipoles := g.hertziandipoles ++
         [{ polarisation := pol, xcoord := p1.1, ycoord := p1.2.1,
            zcoord := p1.2.2,
            dl := hertzianDl g pol,
            waveformID := wid,
            start := start, stop := min stop g.timewindow }] })) ∧
    (raisedCmdInputError (HertzianDipole.create g pol p1 wid (some (start, stop))) = true ↔
      (start < 0 ∨ stop < 0 ∨ stop - start ≤ 0)) ∧
    (HertzianDipole.create g pol p1 wid none =
      Except.ok { g with hertziandipoles := g.hertziandipoles ++
        [{ polarisation := pol, xcoord := p1.1, ycoord := p1.2.1,
           zcoord := p1.2.2,
           dl := hertzianDl g pol,
           waveformID := wid,
           start := 0, stop := g.timewindow }] }) ∧
    (exceptValue (MagneticDipole.create g pol p1 wid (some (start, stop))) =
      (if start < 0 ∨ stop < 0 ∨ stop - start ≤ 0 then none
       else some { g with magneticdipoles := g.magneticdipoles ++
         [{ polarisation := pol, xcoord := p1.1, ycoord := p1.2.1,
            zcoord := p1.2.2, waveformID := wid,
            start := start, stop := min stop g.timewindow }] })) ∧
    (raisedCmdInputError (MagneticDipole.create g pol p1 wid (some (start, stop))) = true ↔
      (start < 0 ∨ stop < 0 ∨ stop - start ≤ 0)) ∧
    (MagneticDipole.create g pol p1 wid none =
      Except.ok { g with magneticdipoles := g.magneticdipoles ++
        [{ polarisation := pol, xcoord := p1.1, ycoord := p1.2.1,
           zcoord := p1.2.2, waveformID := wid,
           start := 0, stop := g.timewindow }] }) ∧
    (TransmissionLine.create g pol p1 r wid (some (start, stop)) =
      Except.error (.nameError "z0")) ∧
    (TransmissionLine.create g pol p1 r wid none =
      Except.error (.nameError "z0")) ∧
    (TransmissionLine.create g pol p1 r2 wid (some (start, stop)) =
      Except.error (.cmdInputError "requires a resistance greater than zero and less than the impedance of free space")) ∧
    (TransmissionLine.create baseGrid Pol.z (0, 0, 0) 50 "mywave"
        (some (1, 2)) =
      Except.error (.nameError "z0")) := by
  have hnr : ¬ r < 0 := not_lt.mpr hr
  have hnr1 : ¬ r ≤ 0 := not_le.mpr hrpos
  have hV : ∀ ss, VoltageSource.create g pol p1 r wid ss =
      (sourceTimes g ss).map fun rr =>
        { g with voltagesources := g.voltagesources ++
          [{ polarisation := pol, xcoord := p1.1, ycoord := p1.2.1,
             zcoord := p1.2.2, resistance := r, waveformID := wid,
             start := rr.1, stop := rr.2 }] } := by
    intro ss
    simp [VoltageSource.create, hpm, hnr]
    intro hmem
    exact absurd (by simpa using hw) hmem
  have hH : ∀ ss, HertzianDipole.create g pol p1 wid ss =
      (sourceTimes g ss).map fun rr =>
        { g with hertziandipoles := g.hertziandipoles ++
          [{ polarisation := pol, xcoord := p1.1, ycoord := p1.2.1,
             zcoord := p1.2.2,
             dl := hertzianDl g pol,
             waveformID := wid,
             start := rr.1, stop := rr.2 }] } := by
    intro ss
    simp [HertzianDipole.create, hpm]
    intro hmem
    exact absurd (by simpa using hw) hmem
  have hM : ∀ ss, MagneticDipole.create g pol p1 wid ss =
      (sourceTimes g ss).map fun rr =>
        { g with magneticdipoles := g.magneticdipoles ++
          [{ polarisation := pol, xcoord := p1.1, ycoord := p1.2.1,
             zcoord := p1.2.2, waveformID := wid,
             start := rr.1, stop := rr.2 }] } := by
    intro ss
    simp [MagneticDipole.create, hpm]
    intro hmem
    exact absurd (by simpa using hw) hmem
  have hT : ∀ ss, TransmissionLine.create g pol p1 r wid ss =
      Except.error (.nameError "z0") := by
    intro ss
    simp [TransmissionLine.create, hpm, hgpu, hnr1]
  refine ⟨?_, ?_, ?_, ?_, ?_, ?_, ?_, ?_, ?_, ?_, ?_, ?_, ?_⟩
  · rw [hV, exceptValue_map, sourceTimes_value]
    by_cases hC : start < 0 ∨ stop < 0 ∨ stop - start ≤ 0
    · rw [if_pos hC, if_pos hC]; rfl
    · rw [if_neg hC, if_neg hC]; rfl
  · rw [hV, raised_map]; exact sourceTimes_raised g start stop
  · rw [hV, sourceTimes_none]; rfl
  · rw [hH, exceptValue_map, sourceTimes_value]
    by_cases hC : start < 0 ∨ stop < 0 ∨ stop - start ≤ 0
    · rw [if_pos hC, if_pos hC]; rfl
    · rw [if_neg hC, if_neg hC]; rfl
  · rw [hH, raised_map]; exact sourceTimes_raised g start stop
  · rw [hH, sourceTimes_none]; rfl
  · rw [hM, exceptValue_map, sourceTimes_value]
    by_cases hC : start < 0 ∨ stop < 0 ∨ stop - start ≤ 0
    · rw [if_pos hC, if_pos hC]; rfl
    · rw [if_neg hC, if_neg hC]; rfl
  · rw [hM, raised_map]; exact sourceTimes_raised g start stop
  · rw [hM, sourceTimes_none]; rfl
  · exact hT (some (start, stop))
  · exact hT none
  · simp [TransmissionLine.create, hpm, hgpu, hr2]
  · rfl

/-- Witness for C8 at a concrete valid input: a voltage source on the base
grid with resistance 50, waveform mywave, start 1, stop 2 is created and
stored with the claimed start and clamped stop. -/
theorem claim_C8_witness :
    polModeBad baseGrid.mode Pol.z = false ∧
    baseGrid.waveforms.contains "mywave" = true ∧
    (0 : Rat) ≤ 50 ∧ baseGrid.gpu = none ∧
    (0 : Rat) < 50 ∧ (-1 : Rat) ≤ 0 ∧
    exceptValue (VoltageSource.create baseGrid Pol.z (0, 0, 0) 50 "mywave"
        (some (1, 2))) =
      (if (1 : Rat) < 0 ∨ (2 : Rat) < 0 ∨ (2 : Rat) - 1 ≤ 0 then none
       else some { baseGrid with voltagesources := baseGrid.voltagesources ++
         [{ polarisation := Pol.z, xcoord := 0, ycoord := 0,
            zcoord := 0, resistance := 50, waveformID := "mywave",
            start := 1, stop := min 2 baseGrid.timewindow }] }) := by
  have h1 : polModeBad baseGrid.mode Pol.z = false := rfl
  have h2 : baseGrid.waveforms.contains "mywave" = true := rfl
  have h3 : (0 : Rat) ≤ 50 := by norm_num
  have h4 : baseGrid.gpu = none := rfl
  have h5 : (0 : Rat) < 50 := by norm_num
  have h6 : (-1 : Rat) ≤ 0 := by norm_num
  exact ⟨h1, h2, h3, h4, h5, h6,
    (claim_C8 baseGrid Pol.z (0, 0, 0) 50 (-1) "mywave" 1 2
      h1 h2 h3 h4 h5 h6).1⟩

/-! ## Claim C9: snapshot creation validation -/

/-- Claim C9: snapshot creation (on the main grid, with the target iteration
given directly) rejects with `CmdInputError` exactly the inputs with a
decimation stride below one (negative included) or a target iteration that is
non-positive or larger than the total iteration count of the run, and appends the
snapshot exactly when `0 < n ≤ grid.iterations` and all three strides are at
least one. -/
theorem claim_C9 (g : Grid) (p1 p2 : Int × Int × Int) (dx dy dz : Int)
    (fn : String) (n : Int) (rv : Rat → Int) :
    (exceptValue (Snapshot.create { g with isSubGrid := false } p1 p2
        dx dy dz fn (some n) none rv) =
      (if 1 ≤ dx ∧ 1 ≤ dy ∧ 1 ≤ dz ∧ 0 < n ∧ n ≤ g.iterations then
        some { g with isSubGrid := false,
                      snapshots := g.snapshots ++
                        [{ time := n, xs := p1.1, ys := p1.2.1, zs := p1.2.2,
                           xf := p2.1, yf := p2.2.1, zf := p2.2.2,
                           dx := dx, dy := dy, dz := dz, filename := fn }] }
      else none)) ∧
    (raisedCmdInputError (Snapshot.create { g with isSubGrid := false } p1 p2
        dx dy dz fn (some n) none rv) = true ↔
      ¬(1 ≤ dx ∧ 1 ≤ dy ∧ 1 ≤ dz ∧ 0 < n ∧ n ≤ g.iterations)) := by
  by_cases hC : 1 ≤ dx ∧ 1 ≤ dy ∧ 1 ≤ dz ∧ 0 < n ∧ n ≤ g.iterations
  · have c1 : ¬((dx < 0 ∨ dy < 0) ∨ dz < 0) := by omega
    have c2 : ¬((dx < 1 ∨ dy < 1) ∨ dz < 1) := by omega
    have c3 : ¬(n ≤ 0 ∨ n > g.iterations) := by omega
    constructor
    · simp [Snapshot.create, c1, c2, c3, hC, exceptValue]
    · simp [Snapshot.create, c1, c2, c3, hC, raisedCmdInputError]
  · by_cases hc1 : (dx < 0 ∨ dy < 0) ∨ dz < 0
    · constructor
      · simp [Snapshot.create, hc1, hC, exceptValue]
      · simp [Snapshot.create, hc1, hC, raisedCmdInputError]
    · by_cases hc2 : (dx < 1 ∨ dy < 1) ∨ dz < 1
      · constructor
        · simp [Snapshot.create, hc1, hc2, hC, exceptValue]
        · simp [Snapshot.create, hc1, hc2, hC, raisedCmdInputError]
      · have hc3 : n ≤ 0 ∨ n > g.iterations := by omega
        constructor
        · simp [Snapshot.create, hc1, hc2, hc3, hC, exceptValue]
        · simp [Snapshot.create, hc1, hc2, hc3, hC, raisedCmdInputError]

/-! ## Claim C2: the two electric update phases -/

/-- The standard non-dispersive electric field update: the compiled
`update_electric` kernel advances E from the curl of H and the coefficient
table. -/
def standardElectricUpdate (ex : CPUExts) (g : Grid) : Grid :=
  let e := ex.update_electric g.nx g.ny g.nz ex.ompthreads g.updatecoeffsE g.ID
    (g.Ex, g.Ey, g.Ez) (g.Hx, g.Hy, g.Hz)
  { g with Ex := e.1, Ey := e.2.1, Ez := e.2.2 }

/-- The first half of the dispersive auxiliary-differential-equation
recurrence: advances the auxiliary T state and E together. -/
def dispersiveUpdateHalfA (ex : CPUExts) (maxpoles : Nat) (g : Grid) : Grid :=
  let r := ex.dispersive_update_a g.nx g.ny g.nz ex.ompthreads maxpoles
    g.updatecoeffsE g.updatecoeffsdispersive g.ID
    (g.Tx, g.Ty, g.Tz) (g.Ex, g.Ey, g.Ez) (g.Hx, g.Hy, g.Hz)
  { g with Tx := r.1.1, Ty := r.1.2.1, Tz := r.1.2.2,
           Ex := r.2.1, Ey := r.2.2.1, Ez := r.2.2.2 }

/-- The second half of the dispersive recurrence: completes the auxiliary
state and finalises E from the post-correction field values. -/
def dispersiveUpdateHalfB (ex : CPUExts) (maxpoles : Nat) (g : Grid) : Grid :=
  let r := ex.dispersive_update_b g.nx g.ny g.nz ex.ompthreads maxpoles
    g.updatecoeffsdispersive g.ID
    (g.Tx, g.Ty, g.Tz) (g.Ex, g.Ey, g.Ez)
  { g with Tx := r.1.1, Ty := r.1.2.1, Tz := r.1.2.2,
           Ex := r.2.1, Ey := r.2.2.1, Ez := r.2.2.2 }

/-- Claim C2: electric phase A performs the standard non-dispersive update
exactly when the maximum pole count is zero and only the first dispersive
half otherwise; electric phase B performs the second dispersive half exactly
when the maximum pole count is nonzero and returns the grid unchanged (a
no-op) otherwise. -/
theorem claim_C2 (ex : CPUExts) (maxpoles : Nat) (g : Grid) :
    (CPUUpdates.update_electric_a ex maxpoles g =
      if maxpoles = 0 then standardElectricUpdate ex g
      else dispersiveUpdateHalfA ex maxpoles g) ∧
    (CPUUpdates.update_electric_b ex maxpoles g =
      if maxpoles = 0 then g else dispersiveUpdateHalfB ex maxpoles g) := by
  constructor
  · by_cases h : maxpoles = 0 <;>
      simp [CPUUpdates.update_electric_a, standardElectricUpdate,
        dispersiveUpdateHalfA, h]
  · by_cases h : maxpoles = 0 <;>
      simp [CPUUpdates.update_electric_b, dispersiveUpdateHalfB, h]

/-! ## Claim C5: electric source application order -/

/-- The list the electric-source loop iterates over:
`voltagesources + transmissionlines + hertziandipoles`, in that order. -/
def electricSourceOrder (g : Grid) : List Source :=
  g.voltagesources ++ g.transmissionlines ++ g.hertziandipoles

/-- One electric-source update as invoked by the loop body. -/
def applyElectricSource (g : Grid) (e : FieldTriple) (s : Source) : FieldTriple :=
  s.updateElectricF g.iteration g.updatecoeffsE g.ID e

/-- A CUDA backend state over the base grid with zeroed device arrays. -/
def baseCudaState : CudaState :=
  { grid := baseGrid
    Ex_gpu := fun _ => 0, Ey_gpu := fun _ => 0, Ez_gpu := fun _ => 0
    Hx_gpu := fun _ => 0, Hy_gpu := fun _ => 0, Hz_gpu := fun _ => 0
    Tx_gpu := fun _ => 0, Ty_gpu := fun _ => 0, Tz_gpu := fun _ => 0
    ID_gpu := fun _ => 0 }

/-- A point source at the origin (the behavioural fields keep their
defaults). -/
def pointSource : Source :=
  { polarisation := Pol.z, xcoord := 0, ycoord := 0, zcoord := 0 }

/-- A CUDA state whose grid holds one voltage source. -/
def cudaVoltState : CudaState :=
  { baseCudaState with grid := { baseGrid with voltagesources := [pointSource] } }

/-- A CUDA state whose grid holds one voltage source and one Hertzian
dipole. -/
def cudaSrcState : CudaState :=
  { baseCudaState with
    grid := { baseGrid with
      voltagesources := [pointSource], hertziandipoles := [pointSource] } }

/-- A CUDA state whose grid holds one snapshot targeted at iteration 1. -/
def cudaSnapState : CudaState :=
  { baseCudaState with
    grid := { baseGrid with
      snapshots := [{ time := 1, xs := 0, ys := 0, zs := 0,
                      xf := 1, yf := 1, zf := 1, dx := 1, dy := 1, dz := 1 }] } }

/-- Claim C5 (code bug): on the CPU backend one call to
`update_electric_sources` folds over exactly
`voltagesources ++ transmissionlines ++ hertziandipoles`, so the
contribution of every Hertzian dipole is applied to field values already
containing the voltage and transmission-line contributions of that
iteration, and transmission-line sources cannot exist on the GPU backend
(their create method rejects any model with a GPU); but on the GPU backend
the claimed application order cannot be realised at all:
`update_electric_sources` evaluates the unbound name `np` (updates.py lines
591/607) and raises `NameError` before launching any source kernel whenever
voltage sources or Hertzian dipoles exist. -/
theorem claim_C5 (g : Grid) (e0 : FieldTriple)
    (g2 : Grid) (d : GPUInfo) (pol : Pol)
    (p1 : Int × Int × Int) (r : Rat) (wid : String)
    (ss : Option (Rat × Rat)) :
    (CPUUpdates.update_electric_sources g =
      (let e := (electricSourceOrder g).foldl (applyElectricSource g)
        (g.Ex, g.Ey, g.Ez)
      { g with Ex := e.1, Ey := e.2.1, Ez := e.2.2,
               iteration := g.iteration + 1 })) ∧
    ((electricSourceOrder g).foldl (applyElectricSource g) e0 =
      g.hertziandipoles.foldl (applyElectricSource g)
        (g.transmissionlines.foldl (applyElectricSource g)
          (g.voltagesources.foldl (applyElectricSource g) e0))) ∧
    (TransmissionLine.create { g2 with gpu := some d } pol p1 r wid ss =
      Except.error
        (.cmdInputError "a transmission line cannot currently be used with GPU solving")) ∧
    (CUDAUpdates.update_electric_sources cudaSrcState =
      Except.error (.nameError "np")) := by
  refine ⟨rfl, ?_, ?_, rfl⟩
  · simp [electricSourceOrder, List.foldl_append]
  · simp [TransmissionLine.create]

/-! ## Claim C1: the iteration counter -/

theorem cpu_magnetic_iter (ex : CPUExts) (g : Grid) :
    (CPUUpdates.update_magnetic ex g).iteration = g.iteration := rfl

theorem cpu_magnetic_pml_iter (g : Grid) :
    (CPUUpdates.update_magnetic_pml g).iteration = g.iteration := rfl

theorem cpu_magnetic_sources_iter (g : Grid) :
    (CPUUpdates.update_magnetic_sources g).iteration = g.iteration := rfl

theorem cpu_electric_a_iter (ex : CPUExts) (mp : Nat) (g : Grid) :
    (CPUUpdates.update_electric_a ex mp g).iteration = g.iteration := by
  by_cases h : mp = 0 <;> simp [CPUUpdates.update_electric_a, h]

theorem cpu_electric_pml_iter (g : Grid) :
    (CPUUpdates.update_electric_pml g).iteration = g.iteration := rfl

theorem cpu_electric_sources_iter (g : Grid) :
    (CPUUpdates.update_electric_sources g).iteration = g.iteration + 1 := rfl

theorem cpu_electric_b_iter (ex : CPUExts) (mp : Nat) (g : Grid) :
    (CPUUpdates.update_electric_b ex mp g).iteration = g.iteration := by
  by_cases h : mp = 0 <;> simp [CPUUpdates.update_electric_b, h]

theorem cpu_store_outputs_iter (g : Grid) :
    (CPUUpdates.store_outputs g).iteration = g.iteration := rfl

theorem cpu_store_snapshots_iter (g : Grid) (i : Int) :
    (CPUUpdates.store_snapshots g i).iteration = g.iteration := rfl

theorem cpuApplyOp_iteration (ex : CPUExts) (mp : Nat) (op : BackendOp)
    (idx : Int) (g : Grid) :
    (cpuApplyOp ex mp op idx g).iteration =
      g.iteration + (if op = BackendOp.electricSources then 1 else 0) := by
  cases op with
  | magnetic => simp [cpuApplyOp, cpu_magnetic_iter]
  | magneticPml => simp [cpuApplyOp, cpu_magnetic_pml_iter]
  | magneticSources => simp [cpuApplyOp, cpu_magnetic_sources_iter]
  | electricA => simp [cpuApplyOp, cpu_electric_a_iter]
  | electricPml => simp [cpuApplyOp, cpu_electric_pml_iter]
  | electricSources => simp [cpuApplyOp, cpu_electric_sources_iter]
  | electricB => simp [cpuApplyOp, cpu_electric_b_iter]
  | outputs => simp [cpuApplyOp, cpu_store_outputs_iter]
  | snapshots => simp [cpuApplyOp, cpu_store_snapshots_iter]

theorem cudaApplyOp_iteration_map (mp : Nat) (op : BackendOp) (idx : Int)
    (st : CudaState) :
    (cudaApplyOp mp op idx st).map (fun s => s.grid.iteration) =
      (cudaApplyOp mp op idx st).map
        (fun _ => st.grid.iteration +
          (if op = BackendOp.electricSources then 1 else 0)) := by
  cases op with
  | magnetic => rfl
  | magneticPml =>
    simp [cudaApplyOp, CUDAUpdates.update_magnetic_pml, Except.map]
  | magneticSources =>
    simp only [cudaApplyOp, CUDAUpdates.update_magnetic_sources]
    split_ifs <;> simp_all [Except.map]
  | electricA =>
    simp only [cudaApplyOp, CUDAUpdates.update_electric_a]
    split_ifs <;> rfl
  | electricPml =>
    simp [cudaApplyOp, CUDAUpdates.update_electric_pml, Except.map]
  | electricSources =>
    simp only [cudaApplyOp, CUDAUpdates.update_electric_sources]
    split_ifs <;> simp_all [Except.map]
  | electricB =>
    simp only [cudaApplyOp, CUDAUpdates.update_electric_b]
    split_ifs <;> simp_all [Except.map]
  | outputs =>
    simp only [cudaApplyOp, CUDAUpdates.store_outputs]
    split_ifs <;> simp_all [Except.map]
  | snapshots =>
    simp only [cudaApplyOp, CUDAUpdates.store_snapshots]
    split_ifs <;> simp_all [Except.map]

theorem cpuOps_iteration_le (ex : CPUExts) (mp : Nat)
    (ops : List (BackendOp × Int)) (g : Grid) :
    g.iteration ≤
      (ops.foldl (fun h p => cpuApplyOp ex mp p.1 p.2 h) g).iteration := by
  induction ops generalizing g with
  | nil => exact le_refl _
  | cons p rest ih =>
    rw [List.foldl_cons]
    refine le_trans ?_ (ih (cpuApplyOp ex mp p.1 p.2 g))
    rw [cpuApplyOp_iteration]
    split <;> omega

theorem cpuIteration_iteration (ex : CPUExts) (mp : Nat) (idx : Int) (g : Grid) :
    (cpuIteration ex mp idx g).iteration = g.iteration + 1 := by
  simp [cpuIteration, cpu_store_snapshots_iter, cpu_store_outputs_iter,
    cpu_electric_b_iter, cpu_electric_sources_iter, cpu_electric_pml_iter,
    cpu_electric_a_iter, cpu_magnetic_sources_iter, cpu_magnetic_pml_iter,
    cpu_magnetic_iter]

theorem cpuRun_iteration (ex : CPUExts) (mp : Nat) (g : Grid) (n : Nat) :
    (cpuRun ex mp g n).iteration = g.iteration + n := by
  induction n with
  | zero => simp [cpuRun]
  | succ n ih =>
    simp only [cpuRun, cpuIteration_iteration, ih]
    push_cast
    ring

/-- Claim C1 (code bug): on the CPU backend only `update_electric_sources`
modifies the iteration counter of the grid, incrementing it by exactly one
after all electric source contributions, which are applied at the
pre-increment iteration number; the counter is monotonically non-decreasing
over any sequence of backend operations, and a run of n full iterations
starting from a counter of 0 ends with the counter equal to n.  On the
accelerator backend the counter is only ever changed by a completing
`update_electric_sources`, but that operation raises `NameError` on the
unbound name `np` (updates.py lines 591/607) before the line-622 increment
whenever voltage sources or Hertzian dipoles exist, so the claimed
once-per-call increment does not happen there. -/
theorem claim_C1 (ex : CPUExts) (mp : Nat) (op : BackendOp)
    (idx : Int) (g g1 gz : Grid) (st : CudaState)
    (ops : List (BackendOp × Int)) (n : Nat) :
    ((cpuApplyOp ex mp op idx g).iteration =
      g.iteration + (if op = BackendOp.electricSources then 1 else 0)) ∧
    (g.iteration ≤
      (ops.foldl (fun h p => cpuApplyOp ex mp p.1 p.2 h) g).iteration) ∧
    ((cpuRun ex mp { gz with iteration := 0 } n).iteration = n) ∧
    (CPUUpdates.update_electric_sources g1 =
      (let e := (g1.voltagesources ++ g1.transmissionlines ++
          g1.hertziandipoles).foldl
        (fun e s => s.updateElectricF g1.iteration g1.updatecoeffsE g1.ID e)
        (g1.Ex, g1.Ey, g1.Ez)
      { g1 with Ex := e.1, Ey := e.2.1, Ez := e.2.2,
                iteration := g1.iteration + 1 })) ∧
    ((cudaApplyOp mp op idx st).map (fun s => s.grid.iteration) =
      (cudaApplyOp mp op idx st).map
        (fun _ => st.grid.iteration +
          (if op = BackendOp.electricSources then 1 else 0))) ∧
    (CUDAUpdates.update_electric_sources st =
      (if st.grid.voltagesources.isEmpty then
        if st.grid.hertziandipoles.isEmpty then
          Except.ok
            { st with grid := { st.grid with iteration := st.grid.iteration + 1 } }
        else Except.error (.nameError "np")
      else Except.error (.nameError "np"))) ∧
    (CUDAUpdates.update_electric_sources cudaVoltState =
      Except.error (.nameError "np")) := by
  refine ⟨cpuApplyOp_iteration ex mp op idx g,
    cpuOps_iteration_le ex mp ops g, ?_, rfl,
    cudaApplyOp_iteration_map mp op idx st, rfl, rfl⟩
  rw [cpuRun_iteration]
  simp

/-! ## Claim C3: snapshot capture -/

theorem storeCapture_time (s : Snap) : s.storeCapture.time = s.time := rfl

theorem cpu_magnetic_snaps (ex : CPUExts) (g : Grid) :
    (CPUUpdates.update_magnetic ex g).snapshots = g.snapshots := rfl

theorem cpu_magnetic_pml_snaps (g : Grid) :
    (CPUUpdates.update_magnetic_pml g).snapshots = g.snapshots := rfl

theorem cpu_magnetic_sources_snaps (g : Grid) :
    (CPUUpdates.update_magnetic_sources g).snapshots = g.snapshots := rfl

theorem cpu_electric_a_snaps (ex : CPUExts) (mp : Nat) (g : Grid) :
    (CPUUpdates.update_electric_a ex mp g).snapshots = g.snapshots := by
  by_cases h : mp = 0 <;> simp [CPUUpdates.update_electric_a, h]

theorem cpu_electric_pml_snaps (g : Grid) :
    (CPUUpdates.update_electric_pml g).snapshots = g.snapshots := rfl

theorem cpu_electric_sources_snaps (g : Grid) :
    (CPUUpdates.update_electric_sources g).snapshots = g.snapshots := rfl

theorem cpu_electric_b_snaps (ex : CPUExts) (mp : Nat) (g : Grid) :
    (CPUUpdates.update_electric_b ex mp g).snapshots = g.snapshots := by
  by_cases h : mp = 0 <;> simp [CPUUpdates.update_electric_b, h]

theorem cpu_store_outputs_snaps (g : Grid) :
    (CPUUpdates.store_outputs g).snapshots = g.snapshots := rfl

theorem cpu_store_snapshots_snaps (g : Grid) (i : Int) :
    (CPUUpdates.store_snapshots g i).snapshots =
      g.snapshots.map (fun s => if s.time = i + 1 then s.storeCapture else s) := rfl

theorem cpuIteration_snapshots (ex : CPUExts) (mp : Nat) (idx : Int) (g : Grid) :
    (cpuIteration ex mp idx g).snapshots =
      g.snapshots.map (fun s => if s.time = idx + 1 then s.storeCapture else s) := by
  simp [cpuIteration, cpu_store_snapshots_snaps, cpu_store_outputs_snaps,
    cpu_electric_b_snaps, cpu_electric_sources_snaps, cpu_electric_pml_snaps,
    cpu_electric_a_snaps, cpu_magnetic_sources_snaps, cpu_magnetic_pml_snaps,
    cpu_magnetic_snaps]

theorem cpuRun_snapshots (ex : CPUExts) (mp : Nat) (g : Grid) (n : Nat) :
    (cpuRun ex mp g n).snapshots =
      g.snapshots.map
        (fun s => if 1 ≤ s.time ∧ s.time ≤ (n : Int) then s.storeCapture else s) := by
  induction n with
  | zero =>
    have hfun : (fun (s : Snap) =>
        if 1 ≤ s.time ∧ s.time ≤ ((0 : Nat) : Int) then s.storeCapture else s) =
        fun s => s := by
      funext s
      rw [if_neg (by omega)]
    rw [cpuRun, hfun]
    simp
  | succ n ih =>
    have hfun : ((fun (x : Snap) =>
        if x.time = (n : Int) + 1 then x.storeCapture else x) ∘
        (fun s => if 1 ≤ s.time ∧ s.time ≤ (n : Int) then s.storeCapture else s)) =
        fun s =>
          if 1 ≤ s.time ∧ s.time ≤ ((n + 1 : Nat) : Int) then s.storeCapture else s := by
      funext s
      simp only [Function.comp_apply]
      by_cases h1 : 1 ≤ s.time ∧ s.time ≤ (n : Int)
      · rw [if_pos h1, storeCapture_time, if_neg (by omega),
          if_pos ⟨h1.1, by push_cast; omega⟩]
      · rw [if_neg h1]
        by_cases h2 : s.time = (n : Int) + 1
        · rw [if_pos h2, if_pos (by push_cast; omega)]
        · rw [if_neg h2, if_neg (by push_cast; omega)]
    rw [cpuRun, cpuIteration_snapshots, ih, List.map_map, hfun]

/-- Claim C3 (code bug): on the CPU backend one call to `store_snapshots`
captures exactly the snapshots whose target `time` equals `iteration + 1`
(the number of the just-completed 0-based iteration), and over a whole run
of n iterations the capture count of each snapshot grows by one exactly when
its target lies within the run - so at most once, even if the run continues
past the target.  On the GPU backend no snapshot is ever captured: whenever
some snapshot matches `time = iteration + 1` the call raises `NameError` on
the unbound name `np` (updates.py line 471) instead of launching the
snapshot kernel. -/
theorem claim_C3 (ex : CPUExts) (mp : Nat) (g g1 : Grid)
    (i : Int) (n : Nat) (st : CudaState) :
    ((CPUUpdates.store_snapshots g1 i).snapshots =
      g1.snapshots.map
        (fun s => if s.time = i + 1 then s.storeCapture else s)) ∧
    ((cpuRun ex mp g n).snapshots =
      g.snapshots.map
        (fun s =>
          if 1 ≤ s.time ∧ s.time ≤ (n : Int) then s.storeCapture else s)) ∧
    (CUDAUpdates.store_snapshots st i =
      (if st.grid.snapshots.any (fun s => s.time = i + 1) then
        Except.error (.nameError "np")
      else Except.ok st)) ∧
    (CUDAUpdates.store_snapshots cudaSnapState 0 =
      Except.error (.nameError "np")) :=
  ⟨rfl, cpuRun_snapshots ex mp g n, rfl, rfl⟩

end GprMax
